import Mathlib

/-!
Shallow embedding of the core coordination logic of `claude-web-mcp`
(`src/core/claude-code-advanced.ts`): the session pool
(`ClaudeSessionPool`), the rate limiter (`RateLimitHandler`) and the
reconnecting stream client (`CodeStreamHandler`), together with theorems
settling the behavioural claims about them.

Modelling conventions: JavaScript `Map`s become association lists with
`Map.get(k) || 0` read as a lookup defaulting to 0; `Date.now()` is an
explicit time parameter; durations and timestamps are `Int` where the
source can produce negative values and `Nat` elsewhere; the asynchronous
methods are split into the atomic state transitions the event loop
interleaves.
-/

namespace ClaudeWebMcp

/-! ### Session pool (`ClaudeSessionPool`)

`sessions` holds the identities created by `initialize` (the browser
contexts themselves are opaque and irrelevant to the claims),
`availableSessions` is the array the source pushes to and pops from, and
`busySessions` models the `Set<string>` of in-use identities. -/

structure ClaudeSessionPool where
  sessions : List String
  availableSessions : List String
  busySessions : List String
deriving DecidableEq

/-- `Set.add`: appends only when absent, as a JS `Set` deduplicates. -/
def setAdd (l : List String) (x : String) : List String :=
  if x ∈ l then l else l ++ [x]

/-- `initialize(browser)`: creates `maxSessions` contexts named
`session-i` and pushes each identity onto `availableSessions`. -/
def initializePool (maxSessions : Nat) : ClaudeSessionPool :=
  let ids := (List.range maxSessions).map (fun i => "session-" ++ toString i)
  { sessions := ids, availableSessions := ids, busySessions := [] }

/-- One poll round of `acquireSession`: when `availableSessions` is empty
the source sleeps and repolls, modelled as `none`; otherwise it
`pop()`s the last element, adds it to `busySessions` and returns it. -/
def acquireSession (p : ClaudeSessionPool) :
    Option (String × ClaudeSessionPool) :=
  match p.availableSessions.getLast? with
  | none => none
  | some sid =>
      some (sid, { p with availableSessions := p.availableSessions.dropLast,
                          busySessions := setAdd p.busySessions sid })

/-- The `while (availableSessions.length === 0) await sleep(100)` polling
loop of `acquireSession`, run for `fuel` rounds: `none` means the loop is
still spinning after `fuel` polls. -/
def acquireLoop (fuel : Nat) (p : ClaudeSessionPool) :
    Option (String × ClaudeSessionPool) :=
  match fuel with
  | 0 => none
  | f + 1 =>
    match acquireSession p with
    | some r => some r
    | none => acquireLoop f p

/-- `releaseSession(sessionId)`: deletes the id from `busySessions` and
unconditionally pushes it onto `availableSessions`. -/
def releaseSession (sid : String) (p : ClaudeSessionPool) :
    ClaudeSessionPool :=
  { p with busySessions := p.busySessions.erase sid,
           availableSessions := p.availableSessions ++ [sid] }

/-- `closeAll()`: closes every context, clears the session map, empties
`availableSessions` and clears `busySessions`. -/
def closeAll (_p : ClaudeSessionPool) : ClaudeSessionPool :=
  { sessions := [], availableSessions := [], busySessions := [] }

/-- `executeWithSession(task)`: acquires a session, runs the task body,
and releases in a `finally`, returning the body's outcome (normal or
error) unchanged. `none` models the case where acquisition is still
polling. -/
def executeWithSession {ε α : Type} (task : String → Except ε α)
    (p : ClaudeSessionPool) : Option (Except ε α × ClaudeSessionPool) :=
  match acquireSession p with
  | none => none
  | some (sid, p1) => some (task sid, releaseSession sid p1)

/-! ### Rate limiter (`RateLimitHandler`) -/

structure RateLimitHandler where
  requestCounts : List (String × Nat)
  resetTimes : List (String × Nat)
  backoffMultiplier : Nat
deriving DecidableEq

def initRateLimitHandler : RateLimitHandler :=
  { requestCounts := [], resetTimes := [], backoffMultiplier := 1 }

/-- `map.get(k) || 0`. -/
def mapGetD (l : List (String × Nat)) (k : String) : Nat :=
  match l.lookup k with
  | some v => v
  | none => 0

/-- `map.set(k, v)`: later entries shadow earlier ones under `lookup`. -/
def mapSet (l : List (String × Nat)) (k : String) (v : Nat) :
    List (String × Nat) :=
  (k, v) :: l

/-- `String.prototype.includes`: substring test on character lists. -/
def hasSubstr : List Char → List Char → Bool
  | [], sub => sub.isEmpty
  | a :: t, sub => sub.isPrefixOf (a :: t) || hasSubstr t sub

/-- `getRateLimit(endpoint)`: static classification of the endpoint key. -/
def getRateLimit (endpoint : String) : Nat :=
  if hasSubstr endpoint.data ("/messages".data) then 30
  else if hasSubstr endpoint.data ("/sessions".data) then 10
  else if hasSubstr endpoint.data ("/compile".data) then 5
  else 50

/-- `shouldThrottle(endpoint)` at time `now`: if `now > resetTime` the
window expired, so the count is reset to 0 and a fresh window end
`now + 60000` is set; then the (possibly reset) count is compared against
the endpoint's limit. Returns the boolean and the mutated handler. -/
def shouldThrottle (now : Nat) (endpoint : String) (h : RateLimitHandler) :
    Bool × RateLimitHandler :=
  let resetTime := mapGetD h.resetTimes endpoint
  let h1 :=
    if resetTime < now then
      { h with requestCounts := mapSet h.requestCounts endpoint 0,
               resetTimes := mapSet h.resetTimes endpoint (now + 60000) }
    else h
  (decide (getRateLimit endpoint ≤ mapGetD h1.requestCounts endpoint), h1)

/-- `recordRequest(endpoint)`: increments the counter, with no window
check of any kind. -/
def recordRequest (endpoint : String) (h : RateLimitHandler) :
    RateLimitHandler :=
  { h with requestCounts :=
      mapSet h.requestCounts endpoint (mapGetD h.requestCounts endpoint + 1) }

/-- `k` consecutive `recordRequest` calls. -/
def recordRequestIter : Nat → String → RateLimitHandler → RateLimitHandler
  | 0, _, h => h
  | k + 1, endpoint, h => recordRequestIter k endpoint (recordRequest endpoint h)

/-- The rate-limit hints of `handleRateLimitResponse`: `Retry-After`
(seconds) and `X-RateLimit-Reset` (absolute milliseconds), each possibly
absent. -/
structure RateLimitResponse where
  retryAfter : Option Int
  xRateLimitReset : Option Int
deriving DecidableEq

/-- The wait duration before backoff scaling: `Retry-After * 1000` when
present, else `X-RateLimit-Reset - Date.now()` when present (which may be
negative), else the 60000 ms default. -/
def baseWaitTime (resp : RateLimitResponse) (now : Int) : Int :=
  match resp.retryAfter with
  | some r => r * 1000
  | none =>
    match resp.xRateLimitReset with
    | some x => x - now
    | none => 60000

/-- The synchronous prefix of `handleRateLimitResponse`, up to the
`setTimeout` await: scales the wait by the current multiplier and doubles
the multiplier, capped at 8, for the next invocation. -/
def rateLimitWaitStart (resp : RateLimitResponse) (now : Int)
    (h : RateLimitHandler) : Int × RateLimitHandler :=
  (baseWaitTime resp now * (h.backoffMultiplier : Int),
   { h with backoffMultiplier := min (h.backoffMultiplier * 2) 8 })

/-- The tail of `handleRateLimitResponse`, run when its wait completes:
unconditionally resets the multiplier to 1. -/
def rateLimitWaitFinish (h : RateLimitHandler) : RateLimitHandler :=
  { h with backoffMultiplier := 1 }

/-- A full sequential `handleRateLimitResponse` call: the wait it
performs, and the handler state after the wait completed. -/
def handleRateLimitResponse (resp : RateLimitResponse) (now : Int)
    (h : RateLimitHandler) : Int × RateLimitHandler :=
  let r := rateLimitWaitStart resp now h
  (r.fst, rateLimitWaitFinish r.snd)

/-! ### Stream client (`CodeStreamHandler`)

The WebSocket and its event handlers are modelled as a state machine
driven by transport events. `writes` records every `ws.send`, `connects`
every `connect(sessionId, token)` call, `delays` every reconnect backoff
wait, and `terminalReports` every "Max reconnection attempts reached"
report. A `failure` event stands for a transport error or close event on
the live socket; both source handlers invoke `reconnect`. -/

inductive WsState
  | noSocket
  | connecting
  | wsOpen
  | closing
  | closed
deriving DecidableEq

/-- Whether a socket exists that can still emit events. -/
def wsLive : WsState → Bool
  | .connecting => true
  | .wsOpen => true
  | .closing => true
  | _ => false

structure CodeStreamHandler where
  wsState : WsState
  messageBuffer : List Nat
  reconnectAttempts : Nat
  sessionId : String
  token : String
  writes : List Nat
  connects : List (String × String)
  delays : List Nat
  terminalReports : Nat
deriving DecidableEq

def initStream : CodeStreamHandler :=
  { wsState := .noSocket, messageBuffer := [], reconnectAttempts := 0,
    sessionId := "", token := "", writes := [], connects := [],
    delays := [], terminalReports := 0 }

/-- `connect(sessionId, token)`: opens a fresh socket (now connecting)
and installs the handlers capturing this identity and credential. -/
def connect (sid tok : String) (s : CodeStreamHandler) : CodeStreamHandler :=
  { s with wsState := .connecting, sessionId := sid, token := tok,
           connects := s.connects ++ [(sid, tok)] }

/-- `flushMessageBuffer()`: shifts messages from the front of the buffer
and sends each, so the whole buffer is written in FIFO order. -/
def flushMessageBuffer (s : CodeStreamHandler) : CodeStreamHandler :=
  { s with writes := s.writes ++ s.messageBuffer, messageBuffer := [] }

/-- The `open` handler: resets the attempt counter and flushes. -/
def onOpen (s : CodeStreamHandler) : CodeStreamHandler :=
  flushMessageBuffer { s with wsState := .wsOpen, reconnectAttempts := 0 }

/-- `reconnect(sessionId, token)`: at 5 or more attempts, reports "Max
reconnection attempts reached" and returns; otherwise increments the
counter, waits `min(1000 * 2^attempts, 30000)` and calls `connect` with
the captured identity and credential. -/
def reconnect (s : CodeStreamHandler) : CodeStreamHandler :=
  if 5 ≤ s.reconnectAttempts then
    { s with terminalReports := s.terminalReports + 1 }
  else
    connect s.sessionId s.token
      { s with reconnectAttempts := s.reconnectAttempts + 1,
               delays := s.delays ++
                 [min (1000 * 2 ^ (s.reconnectAttempts + 1)) 30000] }

/-- `send(message)`: writes immediately when the socket is OPEN,
otherwise pushes onto the outbound buffer. -/
def sendStream (m : Nat) (s : CodeStreamHandler) : CodeStreamHandler :=
  if s.wsState = WsState.wsOpen then { s with writes := s.writes ++ [m] }
  else { s with messageBuffer := s.messageBuffer ++ [m] }

/-- `close()`: `this.ws?.close()` — merely asks the transport to close
(the socket will still emit a close event); no explicitly-closed flag is
set anywhere. -/
def closeStream (s : CodeStreamHandler) : CodeStreamHandler :=
  if wsLive s.wsState then { s with wsState := .closing } else s

inductive StreamEv
  | failure
  | opened
  | sendMsg (m : Nat)
  | explicitClose
deriving DecidableEq

/-- One event of the stream client's event loop. A `failure` (transport
error or close event) can only come from a live socket; it kills the
socket and runs the `reconnect` handler. An `opened` event fires on a
connecting socket. -/
def streamStep (s : CodeStreamHandler) : StreamEv → CodeStreamHandler
  | .failure => if wsLive s.wsState then reconnect { s with wsState := .closed } else s
  | .opened => if s.wsState = WsState.connecting then onOpen s else s
  | .sendMsg m => sendStream m s
  | .explicitClose => closeStream s

def runStream (s : CodeStreamHandler) (evs : List StreamEv) : CodeStreamHandler :=
  evs.foldl streamStep s

/-! ### Pool theorems -/

/-- C5: `releaseSession` on an identity that is not in-use corrupts the
pool: in a pool of one session with `session-0` available (hence not
in-use), releasing it duplicates it in `availableSessions` (the
available-plus-busy multiset grows to size 2 over 1 handle), and two
subsequent acquisitions both hand out `session-0`. -/
theorem c5_release_not_in_use_corrupts :
    (releaseSession ("session-0") (initializePool 1)).availableSessions
        = ["session-0", "session-0"] ∧
    ((releaseSession ("session-0") (initializePool 1)).availableSessions
        ++ (releaseSession ("session-0") (initializePool 1)).busySessions).length = 2 ∧
    Option.map Prod.fst
        (acquireSession (releaseSession ("session-0") (initializePool 1)))
      = some ("session-0") ∧
    Option.bind (acquireSession (releaseSession ("session-0") (initializePool 1)))
        (fun r => Option.map Prod.fst (acquireSession r.snd))
      = some ("session-0") := by
  decide

/-- C6: after `closeAll` the pool is emptied, and `acquireSession` never
completes: for every number of polling rounds the acquisition loop is
still spinning (it raises no `PoolClosed` error — no such error exists). -/
theorem c6_acquire_after_closeAll_spins (p : ClaudeSessionPool) (fuel : Nat) :
    (closeAll p).sessions = [] ∧
    (closeAll p).availableSessions = [] ∧
    acquireLoop fuel (closeAll p) = none := by
  refine ⟨rfl, rfl, ?_⟩
  induction fuel with
  | zero => rfl
  | succ f ih => simpa [acquireLoop, acquireSession, closeAll] using ih

/-- C7: `executeWithSession` is exception-safe: whenever acquisition
succeeds (the available stack has top `sid`), the task's outcome —
normal or error — is returned unchanged, the handle is released before
the call returns, and `sid` is available again in the resulting pool. -/
theorem c7_execute_releases_and_propagates {ε α : Type}
    (p : ClaudeSessionPool) (task : String → Except ε α) (sid : String)
    (hsid : p.availableSessions.getLast? = some sid) :
    executeWithSession task p
      = some (task sid,
          releaseSession sid
            { p with availableSessions := p.availableSessions.dropLast,
                     busySessions := setAdd p.busySessions sid }) ∧
    sid ∈ (releaseSession sid
            { p with availableSessions := p.availableSessions.dropLast,
                     busySessions := setAdd p.busySessions sid }).availableSessions := by
  constructor
  · simp [executeWithSession, acquireSession, hsid]
  · simp [releaseSession]

/-- C7 witness: in a fresh pool of two sessions, a task body that raises
propagates its error while its session is back in `availableSessions`. -/
theorem c7_witness :
    (initializePool 2).availableSessions.getLast? = some ("session-1") ∧
    (executeWithSession (fun _ => (Except.error "boom" : Except String Nat))
        (initializePool 2)
      = some (Except.error "boom",
          releaseSession ("session-1")
            { initializePool 2 with
                availableSessions := (initializePool 2).availableSessions.dropLast,
                busySessions := setAdd (initializePool 2).busySessions ("session-1") }) ∧
    "session-1" ∈ (releaseSession ("session-1")
            { initializePool 2 with
                availableSessions := (initializePool 2).availableSessions.dropLast,
                busySessions := setAdd (initializePool 2).busySessions ("session-1") }).availableSessions) :=
  ⟨by decide,
   c7_execute_releases_and_propagates (initializePool 2)
     (fun _ => (Except.error "boom" : Except String Nat)) ("session-1") (by decide)⟩

/-- C8 counterexample: with both handles in use, releasing `session-0`
then `session-1` and acquiring returns `session-1`, the most recently
released handle, not the least recently released `session-0` the claim
requires. -/
theorem c8_counterexample :
    Option.map Prod.fst
        (acquireSession (releaseSession ("session-1")
          (releaseSession ("session-0")
            ⟨["session-0", "session-1"], [], ["session-0", "session-1"]⟩)))
      = some ("session-1") ∧
    Option.map Prod.fst
        (acquireSession (releaseSession ("session-1")
          (releaseSession ("session-0")
            ⟨["session-0", "session-1"], [], ["session-0", "session-1"]⟩)))
      ≠ some ("session-0") := by
  decide

/-! ### Rate limiter theorems -/

theorem getRateLimit_pos (e : String) : 0 < getRateLimit e := by
  unfold getRateLimit
  split
  · norm_num
  · split
    · norm_num
    · split
      · norm_num
      · norm_num

theorem mapGetD_set_same (l : List (String × Nat)) (k : String) (v : Nat) :
    mapGetD (mapSet l k v) k = v := by
  simp [mapGetD, mapSet, List.lookup]

theorem recordRequest_spec (k : String) (h : RateLimitHandler) :
    (recordRequest k h).resetTimes = h.resetTimes ∧
    (recordRequest k h).backoffMultiplier = h.backoffMultiplier ∧
    mapGetD (recordRequest k h).requestCounts k = mapGetD h.requestCounts k + 1 := by
  refine ⟨rfl, rfl, ?_⟩
  simp [recordRequest, mapGetD_set_same]

/-- Unfolding equation for `shouldThrottle`: in the expired-window
branch the freshly reset count 0 is what gets compared. -/
theorem shouldThrottle_spec (now : Nat) (e : String) (h : RateLimitHandler) :
    shouldThrottle now e h =
      if mapGetD h.resetTimes e < now then
        (decide (getRateLimit e ≤ 0),
         { h with requestCounts := mapSet h.requestCounts e 0,
                  resetTimes := mapSet h.resetTimes e (now + 60000) })
      else (decide (getRateLimit e ≤ mapGetD h.requestCounts e), h) := by
  simp only [shouldThrottle]
  split
  · simp [mapGetD_set_same]
  · rfl

theorem recordRequestIter_spec (k : Nat) (e : String) (h : RateLimitHandler) :
    (recordRequestIter k e h).resetTimes = h.resetTimes ∧
    mapGetD (recordRequestIter k e h).requestCounts e
      = mapGetD h.requestCounts e + k := by
  induction k generalizing h with
  | zero => simp [recordRequestIter]
  | succ n ih =>
    have hrec := recordRequest_spec e h
    have := ih (recordRequest e h)
    refine ⟨by rw [recordRequestIter, this.1, hrec.1], ?_⟩
    rw [recordRequestIter, this.2, hrec.2.2]
    omega

/-- C1 counterexample: three consecutive completed (sequential) calls to
`handleRateLimitResponse` with no hints, from a fresh handler, each wait
60000 ms — the second wait is not at least double the first, because the
multiplier is reset to 1 at the end of every call, not only after an
intervening success. -/
theorem c1_counterexample :
    (handleRateLimitResponse ⟨none, none⟩ 0 initRateLimitHandler).fst = 60000 ∧
    (handleRateLimitResponse ⟨none, none⟩ 0
        (handleRateLimitResponse ⟨none, none⟩ 0 initRateLimitHandler).snd).fst
      = 60000 ∧
    (handleRateLimitResponse ⟨none, none⟩ 0
        (handleRateLimitResponse ⟨none, none⟩ 0
          (handleRateLimitResponse ⟨none, none⟩ 0 initRateLimitHandler).snd).snd).fst
      = 60000 ∧
    ¬ (2 * (handleRateLimitResponse ⟨none, none⟩ 0 initRateLimitHandler).fst ≤
        (handleRateLimitResponse ⟨none, none⟩ 0
          (handleRateLimitResponse ⟨none, none⟩ 0 initRateLimitHandler).snd).fst) := by
  decide

/-- C1 amended: the backoff multiplier doubles (2×, 4×, capped at 8×)
only across invocations whose waits have not yet completed: three
overlapping starts of `handleRateLimitResponse` scale the base wait by
1, 2 and 4, and a fourth leaves the multiplier capped at 8. Completing a
wait unconditionally resets the multiplier to 1, so a sequential call
following any completed call uses the base (1×) wait. -/
theorem c1_amended (resp : RateLimitResponse) (now : Int) (g : RateLimitHandler) :
    (rateLimitWaitStart resp now initRateLimitHandler).fst
      = baseWaitTime resp now ∧
    (rateLimitWaitStart resp now
        (rateLimitWaitStart resp now initRateLimitHandler).snd).fst
      = baseWaitTime resp now * 2 ∧
    (rateLimitWaitStart resp now
        (rateLimitWaitStart resp now
          (rateLimitWaitStart resp now initRateLimitHandler).snd).snd).fst
      = baseWaitTime resp now * 4 ∧
    (rateLimitWaitStart resp now
        (rateLimitWaitStart resp now
          (rateLimitWaitStart resp now
            (rateLimitWaitStart resp now initRateLimitHandler).snd).snd).snd).snd.backoffMultiplier
      = 8 ∧
    (rateLimitWaitFinish g).backoffMultiplier = 1 ∧
    (handleRateLimitResponse resp now
        (handleRateLimitResponse resp now g).snd).fst
      = baseWaitTime resp now := by
  refine ⟨?_, ?_, ?_, ?_, rfl, ?_⟩ <;>
    norm_num [rateLimitWaitStart, rateLimitWaitFinish, handleRateLimitResponse,
      initRateLimitHandler]

/-- C2 counterexample: on a fresh limiter `getRateLimit "/compile" = 5`
records of `/compile` followed by `shouldThrottle` yield `false`, not
`true`: `recordRequest` never opened a window (its state shows no reset
bookkeeping at all), so the first `shouldThrottle` call sees the stale
window end 0, resets the count to 0 and does not throttle. -/
theorem c2_counterexample :
    getRateLimit ("/compile") = 5 ∧
    (recordRequest ("/compile") initRateLimitHandler).resetTimes = [] ∧
    (shouldThrottle 1000 ("/compile")
        (recordRequestIter 5 ("/compile") initRateLimitHandler)).fst = false := by
  decide

/-- C2 amended: once a window for key `K` is open (a `shouldThrottle`
call at a positive time `t0` opens one, ending at `t0 + 60000`), issuing
`getRateLimit K` `recordRequest` calls makes `shouldThrottle` return
`true` at any `t1 ≤ t0 + 60000`, and `false` again at any
`t2 > t0 + 60000` with no explicit reset; `recordRequest` itself
performs no reset-if-expired check — it increments the counter and
leaves the window state untouched. -/
theorem c2_amended (K K2 : String) (g : RateLimitHandler) (t0 t1 t2 : Nat)
    (ht0 : 0 < t0) (ht1 : t1 ≤ t0 + 60000) (ht2 : t0 + 60000 < t2) :
    (shouldThrottle t1 K
        (recordRequestIter (getRateLimit K) K
          (shouldThrottle t0 K initRateLimitHandler).snd)).fst = true ∧
    (shouldThrottle t2 K
        (shouldThrottle t1 K
          (recordRequestIter (getRateLimit K) K
            (shouldThrottle t0 K initRateLimitHandler).snd)).snd).fst = false ∧
    (recordRequest K2 g).resetTimes = g.resetTimes ∧
    mapGetD (recordRequest K2 g).requestCounts K2
      = mapGetD g.requestCounts K2 + 1 := by
  have e0 : (shouldThrottle t0 K initRateLimitHandler).snd
      = { requestCounts := [(K, 0)], resetTimes := [(K, t0 + 60000)],
          backoffMultiplier := 1 } := by
    rw [shouldThrottle_spec]
    rw [if_pos (by simp [initRateLimitHandler, mapGetD, List.lookup]; omega)]
    rfl
  set S := recordRequestIter (getRateLimit K) K
    (shouldThrottle t0 K initRateLimitHandler).snd with hS
  have hiter := recordRequestIter_spec (getRateLimit K) K
    (shouldThrottle t0 K initRateLimitHandler).snd
  have hrt : mapGetD S.resetTimes K = t0 + 60000 := by
    rw [hS, hiter.1, e0]
    simp [mapGetD, List.lookup]
  have hcount : mapGetD S.requestCounts K = getRateLimit K := by
    rw [hS, hiter.2, e0]
    simp [mapGetD, List.lookup]
  have e1 : shouldThrottle t1 K S = (true, S) := by
    rw [shouldThrottle_spec, if_neg (by rw [hrt]; omega)]
    simp [hcount]
  refine ⟨by rw [e1], ?_, (recordRequest_spec K2 g).1,
    (recordRequest_spec K2 g).2.2⟩
  rw [e1]
  rw [shouldThrottle_spec, if_pos (by rw [hrt]; omega)]
  simp [Nat.not_le.mpr (getRateLimit_pos K)]

/-- C2 witness: the amended statement instantiated at endpoint
`/compile` (limit 5), window opened at time 1, probed at times 2 and
70000. -/
theorem c2_witness :
    ((0:Nat) < 1 ∧ 2 ≤ 1 + 60000 ∧ 1 + 60000 < 70000) ∧
    ((shouldThrottle 2 ("/compile")
        (recordRequestIter (getRateLimit ("/compile")) ("/compile")
          (shouldThrottle 1 ("/compile") initRateLimitHandler).snd)).fst = true ∧
    (shouldThrottle 70000 ("/compile")
        (shouldThrottle 2 ("/compile")
          (recordRequestIter (getRateLimit ("/compile")) ("/compile")
            (shouldThrottle 1 ("/compile") initRateLimitHandler).snd)).snd).fst = false ∧
    (recordRequest ("/x") initRateLimitHandler).resetTimes
      = initRateLimitHandler.resetTimes ∧
    mapGetD (recordRequest ("/x") initRateLimitHandler).requestCounts ("/x")
      = mapGetD initRateLimitHandler.requestCounts ("/x") + 1) :=
  ⟨⟨by decide, by decide, by decide⟩,
   c2_amended ("/compile") ("/x") initRateLimitHandler 1 2 70000
     (by decide) (by decide) (by decide)⟩

/-- C10: with no `Retry-After` but an `X-RateLimit-Reset` hint earlier
than the current time, the wait is the unclamped difference
`reset - now`, and after scaling by the (positive) backoff multiplier it
is still negative rather than clamped to zero. -/
theorem c10_negative_wait (x now : Int) (g : RateLimitHandler)
    (hx : x < now) (hm : 0 < g.backoffMultiplier) :
    baseWaitTime ⟨none, some x⟩ now = x - now ∧
    (rateLimitWaitStart ⟨none, some x⟩ now g).fst < 0 := by
  refine ⟨rfl, ?_⟩
  have h1 : baseWaitTime ⟨none, some x⟩ now < 0 := by
    simp only [baseWaitTime]
    omega
  have h2 : (0:Int) < (g.backoffMultiplier : Int) := by exact_mod_cast hm
  simpa [rateLimitWaitStart] using mul_neg_of_neg_of_pos h1 h2

/-- C10 witness: a reset timestamp of 0 against current time 1000 on a
fresh handler yields the negative wait `0 - 1000`. -/
theorem c10_witness :
    ((0:Int) < 1000 ∧ 0 < initRateLimitHandler.backoffMultiplier) ∧
    (baseWaitTime ⟨none, some 0⟩ 1000 = 0 - 1000 ∧
     (rateLimitWaitStart ⟨none, some 0⟩ 1000 initRateLimitHandler).fst < 0) :=
  ⟨⟨by decide, by decide⟩,
   c10_negative_wait 0 1000 initRateLimitHandler (by decide) (by decide)⟩

/-- C8 amended: `releaseSession` does append to the available collection
in release order, but `acquireSession` removes from the tail, so an
acquisition immediately following a release returns the handle just
released (LIFO reuse), not the least-recently released one. -/
theorem c8_amended_lifo_reuse (p : ClaudeSessionPool) (sid : String) :
    (releaseSession sid p).availableSessions = p.availableSessions ++ [sid] ∧
    Option.map Prod.fst (acquireSession (releaseSession sid p)) = some sid := by
  constructor
  · rfl
  · simp [acquireSession, releaseSession, List.getLast?_concat]

/-! ### Stream client theorems -/

/-- Messages sent on a connecting (not open) socket only grow the
outbound buffer, in order; nothing else changes. -/
theorem stream_buffering (ms : List Nat) (s : CodeStreamHandler)
    (hws : s.wsState = WsState.connecting) :
    runStream s (ms.map StreamEv.sendMsg)
      = { s with messageBuffer := s.messageBuffer ++ ms } := by
  induction ms generalizing s with
  | nil => simp [runStream]
  | cons m tl ih =>
    have hstep : streamStep s (StreamEv.sendMsg m)
        = { s with messageBuffer := s.messageBuffer ++ [m] } := by
      simp [streamStep, sendStream, hws]
    have : runStream s ((m :: tl).map StreamEv.sendMsg)
        = runStream { s with messageBuffer := s.messageBuffer ++ [m] }
            (tl.map StreamEv.sendMsg) := by
      simp [runStream, hstep]
    rw [this, ih { s with messageBuffer := s.messageBuffer ++ [m] } hws]
    simp

/-- Once no live socket remains, failure events change nothing: no
further reconnects and no further terminal reports. -/
theorem stream_failure_fixed (s : CodeStreamHandler)
    (h : wsLive s.wsState = false) (n : Nat) :
    runStream s (List.replicate n StreamEv.failure) = s := by
  induction n with
  | zero => rfl
  | succ k ih =>
    have hstep : streamStep s StreamEv.failure = s := by
      simp [streamStep, h]
    simpa [runStream, List.replicate_succ, hstep] using ih

/-- C3 counterexample: after exactly 5 consecutive transport failures
with no successful open (starting from a fresh `connect`), the client
has reported no terminal failure at all and is still attempting
reconnection — it has called `connect` 5 further times (6 in total) and
its attempt counter sits at the ceiling; the claim's stop-and-report
happens only on a 6th consecutive failure. -/
theorem c3_counterexample :
    (runStream (connect ("sid-0") ("tok-0") initStream)
        (List.replicate 5 StreamEv.failure)).terminalReports = 0 ∧
    (runStream (connect ("sid-0") ("tok-0") initStream)
        (List.replicate 5 StreamEv.failure)).connects.length = 6 ∧
    (runStream (connect ("sid-0") ("tok-0") initStream)
        (List.replicate 5 StreamEv.failure)).reconnectAttempts = 5 ∧
    (runStream (connect ("sid-0") ("tok-0" ) initStream)
        (List.replicate 5 StreamEv.failure)).wsState = WsState.connecting := by
  decide

/-- C3 amended: on a transport failure with the counter below 5 the
client increments it, waits `min(1000 * 2^attempt, 30000)` (the
post-increment attempt), and reconnects with the same identity and
credential; with the counter at the ceiling it reports the terminal
failure and stops. From a fresh connection it therefore takes 6
consecutive failures — the initial one plus 5 failed reconnects with
delays 2000, 4000, 8000, 16000, 30000 — to reach the single terminal
report, after which further failures change nothing. -/
theorem c3_amended (s t : CodeStreamHandler) (n : Nat)
    (hs : wsLive s.wsState = true) (ha : s.reconnectAttempts < 5)
    (ht : wsLive t.wsState = true) (hb : 5 ≤ t.reconnectAttempts) :
    streamStep s StreamEv.failure
      = connect s.sessionId s.token
          { s with wsState := WsState.closed,
                   reconnectAttempts := s.reconnectAttempts + 1,
                   delays := s.delays ++
                     [min (1000 * 2 ^ (s.reconnectAttempts + 1)) 30000] } ∧
    streamStep t StreamEv.failure
      = { t with wsState := WsState.closed,
                 terminalReports := t.terminalReports + 1 } ∧
    (runStream (connect ("sid-0") ("tok-0") initStream)
        (List.replicate 6 StreamEv.failure)).terminalReports = 1 ∧
    (runStream (connect ("sid-0") ("tok-0") initStream)
        (List.replicate 6 StreamEv.failure)).delays
      = [2000, 4000, 8000, 16000, 30000] ∧
    runStream (connect ("sid-0") ("tok-0") initStream)
        (List.replicate (6 + n) StreamEv.failure)
      = runStream (connect ("sid-0") ("tok-0") initStream)
        (List.replicate 6 StreamEv.failure) := by
  refine ⟨?_, ?_, by decide, by decide, ?_⟩
  · simp [streamStep, hs, reconnect, Nat.not_le.mpr ha]
  · simp [streamStep, ht, reconnect, hb]
  · rw [List.replicate_add, runStream, List.foldl_append]
    exact stream_failure_fixed _ (by decide) n

/-- C3 witness: the amended statement at a connecting socket with 2
prior attempts, an open socket at the ceiling, and 3 extra failures. -/
theorem c3_witness :
    (wsLive WsState.connecting = true ∧ (2:Nat) < 5 ∧
     wsLive WsState.wsOpen = true ∧ (5:Nat) ≤ 5) ∧
    (streamStep ⟨WsState.connecting, [], 2, "a", "b", [], [], [], 0⟩
        StreamEv.failure
      = connect "a" "b"
          ⟨WsState.closed, [], 3, "a", "b", [], [], [8000], 0⟩ ∧
    streamStep ⟨WsState.wsOpen, [], 5, "c", "d", [], [], [], 0⟩
        StreamEv.failure
      = ⟨WsState.closed, [], 5, "c", "d", [], [], [], 1⟩ ∧
    (runStream (connect ("sid-0") ("tok-0") initStream)
        (List.replicate 6 StreamEv.failure)).terminalReports = 1 ∧
    (runStream (connect ("sid-0") ("tok-0") initStream)
        (List.replicate 6 StreamEv.failure)).delays
      = [2000, 4000, 8000, 16000, 30000] ∧
    runStream (connect ("sid-0") ("tok-0") initStream)
        (List.replicate (6 + 3) StreamEv.failure)
      = runStream (connect ("sid-0") ("tok-0") initStream)
        (List.replicate 6 StreamEv.failure)) :=
  ⟨⟨rfl, by decide, rfl, by decide⟩,
   c3_amended ⟨WsState.connecting, [], 2, "a", "b", [], [], [], 0⟩
     ⟨WsState.wsOpen, [], 5, "c", "d", [], [], [], 0⟩ 3
     rfl (by decide) rfl (by decide)⟩

/-- C4: an explicit `close()` does not suppress auto-reconnect: after
`connect`, a successful open and an explicit `close()`, the transport
close event still runs the reconnect handler — the attempt counter goes
to 1, a 2000 ms backoff is waited, and `connect` is called again (two
`connect` calls in total), leaving the socket connecting again. -/
theorem c4_close_then_event_reconnects :
    (streamStep (streamStep (streamStep
        (connect ("sid-0") ("tok-0") initStream) StreamEv.opened)
        StreamEv.explicitClose) StreamEv.failure).reconnectAttempts = 1 ∧
    (streamStep (streamStep (streamStep
        (connect ("sid-0") ("tok-0") initStream) StreamEv.opened)
        StreamEv.explicitClose) StreamEv.failure).connects.length = 2 ∧
    (streamStep (streamStep (streamStep
        (connect ("sid-0") ("tok-0") initStream) StreamEv.opened)
        StreamEv.explicitClose) StreamEv.failure).delays = [2000] ∧
    (streamStep (streamStep (streamStep
        (connect ("sid-0") ("tok-0") initStream) StreamEv.opened)
        StreamEv.explicitClose) StreamEv.failure).wsState
      = WsState.connecting := by
  decide

/-- C9: sends on a connecting (disconnected) socket perform zero
transport writes and append to the buffer in order; on the transition to
open, all buffered messages are written after the previously written
ones in FIFO order, the buffer empties, and the reconnect attempt
counter resets to zero. -/
theorem c9_buffered_sends_flush_fifo (s : CodeStreamHandler) (ms : List Nat)
    (hws : s.wsState = WsState.connecting) :
    (runStream s (ms.map StreamEv.sendMsg)).writes = s.writes ∧
    (runStream s (ms.map StreamEv.sendMsg)).messageBuffer
      = s.messageBuffer ++ ms ∧
    (runStream s (ms.map StreamEv.sendMsg ++ [StreamEv.opened])).writes
      = s.writes ++ s.messageBuffer ++ ms ∧
    (runStream s (ms.map StreamEv.sendMsg ++ [StreamEv.opened])).messageBuffer
      = [] ∧
    (runStream s (ms.map StreamEv.sendMsg ++ [StreamEv.opened])).reconnectAttempts
      = 0 := by
  have hb := stream_buffering ms s hws
  have h2 : runStream s (ms.map StreamEv.sendMsg ++ [StreamEv.opened])
      = streamStep (runStream s (ms.map StreamEv.sendMsg)) StreamEv.opened := by
    simp [runStream, List.foldl_append]
  refine ⟨by rw [hb], by rw [hb], ?_, ?_, ?_⟩ <;>
    rw [h2, hb] <;>
    simp [streamStep, hws, onOpen, flushMessageBuffer]

/-- C9 witness: three messages sent while connecting are all buffered
with zero writes, then written exactly in send order on open. -/
theorem c9_witness :
    (connect ("sid-0") ("tok-0") initStream).wsState = WsState.connecting ∧
    ((runStream (connect ("sid-0") ("tok-0") initStream)
        (([10, 20, 30] : List Nat).map StreamEv.sendMsg)).writes = [] ∧
    (runStream (connect ("sid-0") ("tok-0") initStream)
        (([10, 20, 30] : List Nat).map StreamEv.sendMsg)).messageBuffer
      = [10, 20, 30] ∧
    (runStream (connect ("sid-0") ("tok-0") initStream)
        (([10, 20, 30] : List Nat).map StreamEv.sendMsg
          ++ [StreamEv.opened])).writes = [10, 20, 30] ∧
    (runStream (connect ("sid-0") ("tok-0") initStream)
        (([10, 20, 30] : List Nat).map StreamEv.sendMsg
          ++ [StreamEv.opened])).messageBuffer = [] ∧
    (runStream (connect ("sid-0") ("tok-0") initStream)
        (([10, 20, 30] : List Nat).map StreamEv.sendMsg
          ++ [StreamEv.opened])).reconnectAttempts = 0) :=
  ⟨rfl, c9_buffered_sends_flush_fifo (connect ("sid-0") ("tok-0") initStream)
    [10, 20, 30] rfl⟩

end ClaudeWebMcp
